import Mathlib

/-!
Verification of the SEMrush traffic-gain projection engine.

The definitions below are a shallow embedding of the core logic of
src/src/App.tsx and src/src/components/CohortRulesEditor.tsx.
JavaScript numbers are modelled as rationals; parseInt and parseFloat
results that may be NaN are modelled as Option values (none = NaN).
The JavaScript truthiness test used by the code (x or-else fallback)
is modelled explicitly: 0 and NaN are falsy.
-/

/-- The five CTR buckets of App.tsx (type Bucket, line 26). -/
inductive Bucket where
  | B13
  | B46
  | B710
  | B1120
  | B21P
deriving DecidableEq, Repr

/-- A parsed keyword row (interface KeywordData, App.tsx lines 5-10).
Position and search volume are parseInt results (integers); currentTraffic
is optional. -/
structure KeywordData where
  keyword : String
  position : ℤ
  searchVolume : ℤ
  currentTraffic : Option ℚ
deriving DecidableEq, Repr

/-- A processed keyword (interface ProcessedKeyword, App.tsx lines 12-24). -/
structure ProcessedKeyword extends KeywordData where
  estimatedCurrentTraffic : ℚ
  trafficB13 : ℚ
  trafficB46 : ℚ
  trafficB710 : ℚ
  trafficB1120 : ℚ
  gainB13 : ℚ
  gainB46 : ℚ
  gainB710 : ℚ
  gainB1120 : ℚ
  expectedTraffic : ℚ
  gainExpected : ℚ
deriving DecidableEq, Repr

/-- Default CTR values per bucket (DEFAULT_BUCKET_CTR, App.tsx lines 29-37). -/
def DEFAULT_BUCKET_CTR : Bucket → ℚ
  | .B13 => (28.5 + 15.7 + 11.0) / 3
  | .B46 => (8.0 + 6.1 + 4.8) / 3
  | .B710 => (3.8 + 3.0 + 2.5 + 2.1) / 4
  | .B1120 => (1.8 + 1.5 + 1.3 + 1.1 + 1.0 + 0.9 + 0.8 + 0.7 + 0.6 + 0.5) / 10
  | .B21P => 0.1

/-- The tunable configuration state of the App component: the CTR table,
the stored transition probabilities (probMatrix, App.tsx lines 50-55),
the CTR uplift and the two filter thresholds. -/
structure Config where
  bucketCtr : Bucket → ℚ
  p13 : ℚ
  p46 : ℚ
  p710 : ℚ
  pstay : ℚ
  upliftCtr : ℚ
  minSearchVolume : ℤ
  maxPosition : ℤ

/-- The default configuration (initial state, App.tsx lines 48-58). -/
def defaultConfig : Config :=
  { bucketCtr := DEFAULT_BUCKET_CTR
    p13 := 5
    p46 := 15
    p710 := 30
    pstay := 20
    upliftCtr := 0
    minSearchVolume := 10
    maxPosition := 50 }

/-- positionToBucket (App.tsx lines 141-147). -/
def positionToBucket (position : ℤ) : Bucket :=
  if position ≤ 3 then .B13
  else if position ≤ 6 then .B46
  else if position ≤ 10 then .B710
  else if position ≤ 20 then .B1120
  else .B21P

/-- calculateBucketCTR (App.tsx lines 149-152): base CTR times
(1 + upliftCtr / 100). -/
def calculateBucketCTR (cfg : Config) (bucket : Bucket) : ℚ :=
  cfg.bucketCtr bucket * (1 + cfg.upliftCtr / 100)

/-- The derived Pos11to20 probability mass p1120 (App.tsx lines 155-158):
Math.max(0, 100 - p13 - p46 - p710 - pstay). -/
def derivedP1120 (cfg : Config) : ℚ :=
  max 0 (100 - cfg.p13 - cfg.p46 - cfg.p710 - cfg.pstay)

/-- The JavaScript expression (v or-else fallback) on an optional number:
undefined and 0 are falsy and select the fallback. -/
def jsOrQ (v : Option ℚ) (fallback : ℚ) : ℚ :=
  match v with
  | none => fallback
  | some t => if t = 0 then fallback else t

/-- estimatedCurrentTraffic (App.tsx lines 165-166):
keyword.currentTraffic or-else searchVolume * currentCtr / 100. -/
def estimateCurrentTraffic (cfg : Config) (k : KeywordData) : ℚ :=
  jsOrQ k.currentTraffic
    ((k.searchVolume : ℚ) * calculateBucketCTR cfg (positionToBucket k.position) / 100)

/-- Traffic if moved to a given bucket (trafficB13 etc., App.tsx
lines 168-171): searchVolume * calculateBucketCTR(bucket) / 100. -/
def bucketTraffic (cfg : Config) (k : KeywordData) (b : Bucket) : ℚ :=
  (k.searchVolume : ℚ) * calculateBucketCTR cfg b / 100

/-- The blended expected CTR (App.tsx lines 173-178). -/
def expectedCtr (cfg : Config) (position : ℤ) : ℚ :=
  cfg.p13 / 100 * calculateBucketCTR cfg .B13 +
  cfg.p46 / 100 * calculateBucketCTR cfg .B46 +
  cfg.p710 / 100 * calculateBucketCTR cfg .B710 +
  derivedP1120 cfg / 100 * calculateBucketCTR cfg .B1120 +
  cfg.pstay / 100 * calculateBucketCTR cfg (positionToBucket position)

/-- expectedTraffic (App.tsx line 179). -/
def expectedTraffic (cfg : Config) (k : KeywordData) : ℚ :=
  (k.searchVolume : ℚ) * expectedCtr cfg k.position / 100

/-- One keyword of the processedKeywords map (App.tsx lines 162-194). -/
def processKeyword (cfg : Config) (k : KeywordData) : ProcessedKeyword :=
  { toKeywordData := k
    estimatedCurrentTraffic := estimateCurrentTraffic cfg k
    trafficB13 := bucketTraffic cfg k .B13
    trafficB46 := bucketTraffic cfg k .B46
    trafficB710 := bucketTraffic cfg k .B710
    trafficB1120 := bucketTraffic cfg k .B1120
    gainB13 := bucketTraffic cfg k .B13 - estimateCurrentTraffic cfg k
    gainB46 := bucketTraffic cfg k .B46 - estimateCurrentTraffic cfg k
    gainB710 := bucketTraffic cfg k .B710 - estimateCurrentTraffic cfg k
    gainB1120 := bucketTraffic cfg k .B1120 - estimateCurrentTraffic cfg k
    expectedTraffic := expectedTraffic cfg k
    gainExpected := expectedTraffic cfg k - estimateCurrentTraffic cfg k }

/-- processedKeywords (App.tsx lines 154-195): filter by the volume and
position thresholds, then project each keyword. -/
def processedKeywords (cfg : Config) (ks : List KeywordData) : List ProcessedKeyword :=
  (ks.filter fun k =>
      decide (cfg.minSearchVolume ≤ k.searchVolume ∧ k.position ≤ cfg.maxPosition)).map
    (processKeyword cfg)

/-- A raw input row after column-alias resolution, holding the parseInt
and parseFloat results of handleFileUpload (App.tsx lines 78-103); none
models NaN. -/
structure RawRow where
  keyword : String
  position : Option ℤ
  searchVolume : Option ℤ
  traffic : Option ℚ
deriving DecidableEq, Repr

/-- The record built from a raw row (App.tsx lines 92-110): NaN position
and volume become 0, and the traffic result goes through
parseFloat(...) or-else undefined, so NaN and 0 both become undefined. -/
def parseRow (r : RawRow) : KeywordData :=
  { keyword := r.keyword
    position := r.position.getD 0
    searchVolume := r.searchVolume.getD 0
    currentTraffic :=
      match r.traffic with
      | none => none
      | some t => if t = 0 then none else some t }

/-- The validity filter on parsed rows (App.tsx line 111):
k.keyword truthy (non-empty) and k.position > 0 and k.searchVolume > 0. -/
def parsedKeywords (rows : List RawRow) : List KeywordData :=
  (rows.map parseRow).filter fun k =>
    decide (k.keyword ≠ "" ∧ 0 < k.position ∧ 0 < k.searchVolume)

/-- Javascript Math.round: floor(x + 1/2). -/
def jsRound (q : ℚ) : ℤ := ⌊q + 1 / 2⌋

/-- Keyword text truncation for the opportunity list (App.tsx line 262). -/
def truncateKeyword (s : String) : String :=
  if 25 < s.length then s.take 25 ++ "..." else s

/-- A displayed top-opportunity entry (App.tsx lines 260-266). -/
structure OpportunityEntry where
  keyword : String
  current : ℤ
  potential : ℤ
  gain : ℤ
deriving DecidableEq, Repr

/-- The display projection of one opportunity (App.tsx lines 260-266). -/
def displayOpportunity (k : ProcessedKeyword) : OpportunityEntry :=
  { keyword := truncateKeyword k.keyword
    current := jsRound k.estimatedCurrentTraffic
    potential := jsRound k.expectedTraffic
    gain := jsRound k.gainExpected }

/-- The comparator of the opportunity sort (App.tsx line 258): a precedes b
exactly when the gain of b does not exceed the gain of a. -/
def gainGE (a b : ProcessedKeyword) : Prop :=
  b.gainExpected ≤ a.gainExpected

instance : DecidableRel gainGE :=
  fun a b => inferInstanceAs (Decidable (b.gainExpected ≤ a.gainExpected))

instance : IsTotal ProcessedKeyword gainGE :=
  ⟨fun a b => le_total b.gainExpected a.gainExpected⟩

instance : IsTrans ProcessedKeyword gainGE :=
  ⟨fun _ _ _ h1 h2 => le_trans h2 h1⟩

/-- The record stage of topOpportunities (App.tsx lines 256-259): filter to
strictly positive expected gain, sort descending by gain (stably), take 10. -/
def topOppRecords (l : List ProcessedKeyword) : List ProcessedKeyword :=
  (((l.filter fun k => decide (0 < k.gainExpected)).insertionSort gainGE).take 10)

/-- topOpportunities (App.tsx lines 256-266): the record stage mapped to
display entries. -/
def topOpportunities (l : List ProcessedKeyword) : List OpportunityEntry :=
  (topOppRecords l).map displayOpportunity

/-- The derived state of one cohort rule row
(CohortRulesEditor.tsx lines 75-82): the parsed probabilities are kept as
given; leftover is 1 - sum when the sum is at most 1 and 0 otherwise;
error flags a sum above 1. -/
structure CohortRow where
  probA : ℚ
  probB : ℚ
  probC : ℚ
  leftover : ℚ
  error : Bool
deriving DecidableEq, Repr

/-- Evaluation of one cohort rule row (CohortRulesEditor.tsx lines 76-81). -/
def evalCohortRule (a b c : ℚ) : CohortRow :=
  { probA := a
    probB := b
    probC := c
    leftover := if a + b + c ≤ 1 then 1 - (a + b + c) else 0
    error := decide (1 < a + b + c) }

/-- Claim C1 (amended): estimateCurrentTraffic returns the observed traffic
unchanged whenever it is present and nonzero, bypassing the CTR computation;
when it is absent or equal to 0 (both falsy in the source), the result is
searchVolume * ctr(bucketOf(position)) / 100. -/
theorem C1_estimate_observed_precedence (cfg : Config) (k : KeywordData) :
    (∀ t : ℚ, k.currentTraffic = some t → t ≠ 0 → estimateCurrentTraffic cfg k = t) ∧
    (k.currentTraffic = none →
      estimateCurrentTraffic cfg k =
        (k.searchVolume : ℚ) * calculateBucketCTR cfg (positionToBucket k.position) / 100) ∧
    (k.currentTraffic = some 0 →
      estimateCurrentTraffic cfg k =
        (k.searchVolume : ℚ) * calculateBucketCTR cfg (positionToBucket k.position) / 100) := by
  refine ⟨fun t ht htz => ?_, fun h => ?_, fun h => ?_⟩ <;>
    simp [estimateCurrentTraffic, jsOrQ, *]

/-- Claim C1 witness: a present nonzero observed traffic of 7 is returned
unchanged. -/
theorem C1_witness : estimateCurrentTraffic defaultConfig ⟨"shoes", 5, 1000, some 7⟩ = 7 :=
  (C1_estimate_observed_precedence defaultConfig ⟨"shoes", 5, 1000, some 7⟩).1 7 rfl
    (by norm_num)

/-- Claim C1 counterexample: for a record whose observed traffic is present
and equal to 0 the estimator does not return the observed 0; it falls
through to the modeled estimate 63. -/
theorem C1_counterexample :
    (⟨"shoes", 5, 1000, some 0⟩ : KeywordData).currentTraffic = some 0 ∧
    estimateCurrentTraffic defaultConfig ⟨"shoes", 5, 1000, some 0⟩ = 63 ∧
    (63 : ℚ) ≠ 0 := by
  refine ⟨rfl, ?_, by norm_num⟩
  simp [estimateCurrentTraffic, jsOrQ, defaultConfig, DEFAULT_BUCKET_CTR, calculateBucketCTR,
    positionToBucket]
  norm_num

/-- Claim C2: the blended expected CTR is the probability-weighted sum of the
four target bucket CTRs (with the derived Pos11to20 mass) plus the stay term
at the CTR of the current bucket; expectedTraffic is
searchVolume * expectedCtr / 100; and two keywords with equal probability
inputs and volume but positions in different buckets get different expected
traffic. -/
theorem C2_expected_blend (cfg : Config) (k : KeywordData) :
    expectedCtr cfg k.position =
        cfg.p13 / 100 * calculateBucketCTR cfg .B13 +
        cfg.p46 / 100 * calculateBucketCTR cfg .B46 +
        cfg.p710 / 100 * calculateBucketCTR cfg .B710 +
        derivedP1120 cfg / 100 * calculateBucketCTR cfg .B1120 +
        cfg.pstay / 100 * calculateBucketCTR cfg (positionToBucket k.position) ∧
    (processKeyword cfg k).expectedTraffic =
        (k.searchVolume : ℚ) * expectedCtr cfg k.position / 100 ∧
    (processKeyword defaultConfig ⟨"a", 2, 1000, none⟩).expectedTraffic ≠
        (processKeyword defaultConfig ⟨"b", 5, 1000, none⟩).expectedTraffic := by
  refine ⟨rfl, rfl, ?_⟩
  simp [processKeyword, expectedTraffic, expectedCtr, derivedP1120, calculateBucketCTR,
    defaultConfig, DEFAULT_BUCKET_CTR, positionToBucket]
  norm_num

/-- Claim C3: positionToBucket maps 1..3 to B13, 4..6 to B46, 7..10 to B710,
11..20 to B1120 and everything from 21 on to B21P; being a total function
with each range characterized by an iff, the five ranges partition the
positive integers with no gaps or overlaps. -/
theorem C3_bucket_partition (p : ℤ) (hp : 1 ≤ p) :
    (positionToBucket p = .B13 ↔ 1 ≤ p ∧ p ≤ 3) ∧
    (positionToBucket p = .B46 ↔ 4 ≤ p ∧ p ≤ 6) ∧
    (positionToBucket p = .B710 ↔ 7 ≤ p ∧ p ≤ 10) ∧
    (positionToBucket p = .B1120 ↔ 11 ≤ p ∧ p ≤ 20) ∧
    (positionToBucket p = .B21P ↔ 21 ≤ p) := by
  unfold positionToBucket
  split_ifs <;> refine ⟨?_, ?_, ?_, ?_, ?_⟩ <;> simp <;> omega

/-- Claim C3 witness: position 5 lands in bucket B46. -/
theorem C3_witness : positionToBucket 5 = Bucket.B46 :=
  ((C3_bucket_partition 5 (by norm_num)).2.1).mpr (by norm_num)

/-- Claim C4: the derived Pos11to20 mass equals
max(0, 100 - p13 - p46 - p710 - pstay), is never negative, and is exactly 0
when the four stored inputs already sum above 100. -/
theorem C4_derived_mass (cfg : Config) :
    derivedP1120 cfg = max 0 (100 - cfg.p13 - cfg.p46 - cfg.p710 - cfg.pstay) ∧
    0 ≤ derivedP1120 cfg ∧
    (100 < cfg.p13 + cfg.p46 + cfg.p710 + cfg.pstay → derivedP1120 cfg = 0) := by
  refine ⟨rfl, le_max_left _ _, fun h => ?_⟩
  unfold derivedP1120
  rw [max_eq_left (by linarith)]

/-- Claim C4 witness: over-allocated inputs (sum 140) give a derived mass of
exactly 0. -/
theorem C4_witness : derivedP1120 { defaultConfig with pstay := 90 } = 0 :=
  (C4_derived_mass { defaultConfig with pstay := 90 }).2.2 (by norm_num [defaultConfig])

/-- Claim C5 (amended): the top-opportunity list never exceeds 10 entries,
is sorted in non-increasing (weakly descending) order by expected gain
(strictness can fail when two entries have equal gain), contains only
keywords with strictly positive expected gain, and the display truncation
is a separate projection: the records selected are members of the input
list, passed through unchanged. -/
theorem C5_top_opportunities (l : List ProcessedKeyword) :
    (topOpportunities l).length ≤ 10 ∧
    List.Sorted gainGE (topOppRecords l) ∧
    (∀ k ∈ topOppRecords l, 0 < k.gainExpected) ∧
    (∀ k ∈ topOppRecords l, k ∈ l) ∧
    topOpportunities l = (topOppRecords l).map displayOpportunity := by
  refine ⟨?_, ?_, ?_, ?_, rfl⟩
  · simp [topOpportunities, topOppRecords]
  · exact List.Pairwise.sublist (List.take_sublist 10 _)
      (List.sorted_insertionSort gainGE _)
  · intro k hk
    have h1 := List.mem_of_mem_take hk
    have h2 := (List.perm_insertionSort gainGE _).mem_iff.mp h1
    exact of_decide_eq_true (List.mem_filter.mp h2).2
  · intro k hk
    have h1 := List.mem_of_mem_take hk
    have h2 := (List.perm_insertionSort gainGE _).mem_iff.mp h1
    exact List.mem_of_mem_filter h2

/-- Claim C5 witness: a concrete keyword selected into the opportunity list
has strictly positive expected gain. -/
theorem C5_witness :
    0 < (processKeyword defaultConfig ⟨"shoes", 15, 1000, none⟩).gainExpected := by
  have heq : topOppRecords [processKeyword defaultConfig ⟨"shoes", 15, 1000, none⟩] =
      [processKeyword defaultConfig ⟨"shoes", 15, 1000, none⟩] := by
    simp only [topOppRecords, processKeyword, expectedTraffic, expectedCtr,
      estimateCurrentTraffic, jsOrQ, defaultConfig, DEFAULT_BUCKET_CTR, calculateBucketCTR,
      positionToBucket, derivedP1120, bucketTraffic, List.filter, List.insertionSort,
      List.orderedInsert]
    norm_num
  exact (C5_top_opportunities [processKeyword defaultConfig ⟨"shoes", 15, 1000, none⟩]).2.2.1 _
    (by rw [heq]; exact List.mem_cons_self _ _)

/-- Claim C5 counterexample: two processed keywords with equal positive
expected gain produce a top-opportunity list that is not strictly descending
by gain (the two equal gains are adjacent). -/
theorem C5_counterexample :
    ¬ List.Pairwise (fun a b => b.gainExpected < a.gainExpected)
      (topOppRecords (processedKeywords defaultConfig
        [⟨"shoes", 15, 1000, none⟩, ⟨"boots", 15, 1000, none⟩])) := by
  simp only [topOppRecords, processedKeywords, processKeyword, expectedTraffic, expectedCtr,
    estimateCurrentTraffic, jsOrQ, defaultConfig, DEFAULT_BUCKET_CTR, calculateBucketCTR,
    positionToBucket, derivedP1120, bucketTraffic, List.filter, List.insertionSort,
    List.orderedInsert, List.map]
  norm_num
  rw [if_pos (by norm_num [gainGE])]
  rw [List.take_of_length_le (by simp)]
  simp only [List.pairwise_cons]
  norm_num

/-- Claim C6: for every cohort rule the derived residual equals
max(0, 1 - (probA + probB + probC)) and is never negative; when the sum
exceeds 1 the rule is flagged as an error with residual forced to 0;
the probabilities themselves are preserved unchanged in the evaluated row. -/
theorem C6_cohort_residual (a b c : ℚ) :
    (evalCohortRule a b c).leftover = max 0 (1 - (a + b + c)) ∧
    0 ≤ (evalCohortRule a b c).leftover ∧
    (1 < a + b + c →
      (evalCohortRule a b c).error = true ∧ (evalCohortRule a b c).leftover = 0) ∧
    (evalCohortRule a b c).probA = a ∧ (evalCohortRule a b c).probB = b ∧
    (evalCohortRule a b c).probC = c := by
  have hleft : (evalCohortRule a b c).leftover = max 0 (1 - (a + b + c)) := by
    show (if a + b + c ≤ 1 then 1 - (a + b + c) else 0) = _
    split_ifs with h
    · rw [max_eq_right (by linarith)]
    · rw [max_eq_left (by linarith)]
  refine ⟨hleft, hleft ▸ le_max_left _ _, fun h => ⟨?_, ?_⟩, rfl, rfl, rfl⟩
  · exact decide_eq_true h
  · show (if a + b + c ≤ 1 then 1 - (a + b + c) else 0) = 0
    rw [if_neg (by linarith)]

/-- Claim C6 witness: probabilities 0.5, 0.4, 0.3 (sum 1.2) are flagged
invalid with residual 0. -/
theorem C6_witness :
    (evalCohortRule 0.5 0.4 0.3).error = true ∧ (evalCohortRule 0.5 0.4 0.3).leftover = 0 :=
  (C6_cohort_residual 0.5 0.4 0.3).2.2.1 (by norm_num)

/-- Claim C7: a parsed record is retained by the validity filter exactly
when its keyword text is non-empty, its position is strictly positive and
its search volume is strictly positive; failing rows are dropped silently,
reflected only in a smaller output count. -/
theorem C7_validity_filter (rows : List RawRow) :
    (∀ k : KeywordData, k ∈ parsedKeywords rows ↔
      k ∈ rows.map parseRow ∧ (k.keyword ≠ "" ∧ 0 < k.position ∧ 0 < k.searchVolume)) ∧
    (parsedKeywords rows).length ≤ rows.length := by
  constructor
  · intro k
    simp [parsedKeywords, List.mem_filter]
  · calc (parsedKeywords rows).length ≤ (rows.map parseRow).length :=
          List.length_filter_le _ _
      _ = rows.length := List.length_map _ _

/-- Claim C8: for a bucket with strictly positive base CTR, the effective
CTR base * (1 + upliftPct / 100) is strictly increasing in the uplift. -/
theorem C8_uplift_monotone (cfg : Config) (b : Bucket) (u1 u2 : ℚ)
    (hb : 0 < cfg.bucketCtr b) (hu : u1 < u2) :
    calculateBucketCTR { cfg with upliftCtr := u1 } b <
      calculateBucketCTR { cfg with upliftCtr := u2 } b := by
  show cfg.bucketCtr b * (1 + u1 / 100) < cfg.bucketCtr b * (1 + u2 / 100)
  have h : 1 + u1 / 100 < 1 + u2 / 100 := by linarith
  exact mul_lt_mul_of_pos_left h hb

/-- Claim C8 witness: raising the uplift from 0 to 10 strictly raises the
effective CTR of bucket B13 under the default table. -/
theorem C8_witness :
    calculateBucketCTR { defaultConfig with upliftCtr := 0 } Bucket.B13 <
      calculateBucketCTR { defaultConfig with upliftCtr := 10 } Bucket.B13 :=
  C8_uplift_monotone defaultConfig Bucket.B13 0 10
    (by norm_num [defaultConfig, DEFAULT_BUCKET_CTR]) (by norm_num)

/-- Claim C9: the parser never produces a record with observed traffic
exactly 0: a raw traffic value of 0 (or NaN) is coerced to absent, and a
row reporting zero observed traffic is given the modeled estimate. -/
theorem C9_zero_traffic_coerced (r : RawRow) :
    (parseRow r).currentTraffic ≠ some 0 ∧
    (r.traffic = some 0 → (parseRow r).currentTraffic = none) ∧
    (r.traffic = some 0 → ∀ cfg : Config,
      estimateCurrentTraffic cfg (parseRow r) =
        ((parseRow r).searchVolume : ℚ) *
          calculateBucketCTR cfg (positionToBucket (parseRow r).position) / 100) := by
  refine ⟨?_, fun h => by simp [parseRow, h], fun h cfg => ?_⟩
  · show (match r.traffic with
      | none => none
      | some t => if t = 0 then none else some t) ≠ some 0
    cases htr : r.traffic with
    | none => simp
    | some t =>
      show (if t = 0 then none else (some t : Option ℚ)) ≠ some 0
      split_ifs with ht
      · simp
      · simp [ht]
  · have h2 : (parseRow r).currentTraffic = none := by simp [parseRow, h]
    simp [estimateCurrentTraffic, jsOrQ, h2]

/-- Claim C9 witness: a row with traffic column 0 parses to a record with
absent observed traffic. -/
theorem C9_witness : (parseRow ⟨"x", some 5, some 100, some 0⟩).currentTraffic = none :=
  (C9_zero_traffic_coerced ⟨"x", some 5, some 100, some 0⟩).2.1 rfl

/-- Claim C10: for a keyword without observed traffic, the projected traffic
of its own current bucket equals the estimated current traffic, so the gain
for that bucket (among the four projection targets) is exactly 0, for every
configuration. -/
theorem C10_stay_gain_zero (cfg : Config) (k : KeywordData)
    (hct : k.currentTraffic = none) :
    (positionToBucket k.position = .B13 → (processKeyword cfg k).gainB13 = 0) ∧
    (positionToBucket k.position = .B46 → (processKeyword cfg k).gainB46 = 0) ∧
    (positionToBucket k.position = .B710 → (processKeyword cfg k).gainB710 = 0) ∧
    (positionToBucket k.position = .B1120 → (processKeyword cfg k).gainB1120 = 0) := by
  have he : estimateCurrentTraffic cfg k = bucketTraffic cfg k (positionToBucket k.position) := by
    simp [estimateCurrentTraffic, bucketTraffic, jsOrQ, hct]
  refine ⟨fun hb => ?_, fun hb => ?_, fun hb => ?_, fun hb => ?_⟩ <;>
    · simp only [processKeyword]
      rw [he, hb]
      exact sub_self _

/-- Claim C10 witness: a keyword at position 2 with no observed traffic has
gain exactly 0 for its own bucket B13. -/
theorem C10_witness : (processKeyword defaultConfig ⟨"shoes", 2, 1000, none⟩).gainB13 = 0 :=
  (C10_stay_gain_zero defaultConfig ⟨"shoes", 2, 1000, none⟩ rfl).1 rfl
